import Mathlib

/-!
Shallow embedding of the authorization and tenant-isolation core of the
EventManager backend (`src/server.js`). The source file holds three
concatenated variants of the server; definitions below carry a `V1`, `V2`
or `V3` suffix (or none, when the logic is identical) matching the variant
they embed. The external tabular store (Airtable) is modelled as explicit
lists of records; a store query selecting records whose field equals a value is modelled as a
filter / first-match over the corresponding list, and `find(recordId)` as
a lookup that fails (throws, caught as a 500 response) when absent.
-/

/-- Decoded JWT payload attached to `req.user` after verification.
Variant-3 tokens carry `{ id, type, asblId }`; `asblId` is `Option` because
a superadmin token has none and a decoded token may lack the field. A
missing `type` field is conflated with `""` (both are falsy in the JS
checks that read it). -/
structure UserClaim where
  id : String
  type : String
  asblId : Option String
deriving DecidableEq, Repr

/-- An HTTP error response `{ status, error }`. -/
structure HttpResponse where
  status : Nat
  error : String
deriving DecidableEq, Repr

/-- Outcome of a route handler: an error response or a success payload. -/
inductive RouteResult (α : Type) where
  | err (status : Nat) (msg : String)
  | ok (val : α)
deriving DecidableEq, Repr

/-- A record of the `ASBL` table. `businessId` is the `fields.id` business
code ("ASBL001"); `participants` / `reservations` are linked-record arrays
of opaque record ids (`Option` models an absent / non-array field, which
the code defaults to `[]`). -/
structure AsblRecord where
  recordId : String
  businessId : Option String
  codeAdmin : Option String
  participants : Option (List String)
  reservations : Option (List String)
deriving DecidableEq, Repr

/-- A record of the `Benevoles` table. `asblId` / `asblCode` are the direct
tenant-code text fields; `asbl` / `ASBL` are the two possible linked-record
array fields; `fieldsId` is the `fields.id` of the record itself (used by the
variant-1 login when signing a volunteer token). `none` models an absent
or non-string (resp. non-array) field. -/
structure BenevoleRecord where
  recordId : String
  codeAcces : Option String
  asblId : Option String
  asblCode : Option String
  asbl : Option (List String)
  ASBL : Option (List String)
  fieldsId : Option String
deriving DecidableEq, Repr

/-- A record of the `participants` table. The only field relevant to the
authorization model is a possible direct tenant field. -/
structure ParticipantRecord where
  recordId : String
  asblId : Option String
deriving DecidableEq, Repr

/-- A record of the `Reservations` table. -/
structure ReservationRecord where
  recordId : String
  asblId : Option String
deriving DecidableEq, Repr

/-- The external tabular store: one list per table. -/
structure Store where
  asbls : List AsblRecord
  benevoles : List BenevoleRecord
  participants : List ParticipantRecord
  reservations : List ReservationRecord
deriving DecidableEq, Repr

/-! ### Pure policy functions (variant 3) -/

/-- Policy `canAccessAsbl(asblCode, req)` (variant 3, lines 434-440): superadmin
has full access; otherwise `req.user?.asblId === asblCode` (exact JS
string equality; an absent `asblId` never equals a string). -/
def canAccessAsbl (asblCode : String) (user : UserClaim) : Bool :=
  if user.type == "superadmin" then true
  else user.asblId == some asblCode

/-- Error message of the `requireRole` middleware (variant 3, line 394). -/
def roleErrMsg (roles : List String) : String :=
  "Accès refusé (" ++ String.intercalate " / " roles ++ " uniquement)"

/-- Middleware factory `requireRole(roles)` (variant 3, lines 391-397): reads
`t = req.user?.type` and rejects with 403 when `t` is falsy or not in
`roles`; returns `none` to mean `next()` was called. -/
def requireRole (roles : List String) (user : UserClaim) : Option HttpResponse :=
  let t := user.type
  if t == "" || !(roles.contains t) then some ⟨403, roleErrMsg roles⟩
  else none

/-- Composition of `requireRole` with a route handler: the handler result
is produced only when the role middleware calls `next()`. -/
def withRole (roles : List String) (user : UserClaim) (handler : RouteResult α) :
    RouteResult α :=
  match requireRole roles user with
  | some r => .err r.status r.error
  | none => handler

/-! ### Token verification middleware -/

/-- Outcome of the `verify` call of the jsonwebtoken library, modelled
abstractly: success with a decoded claim, a `TokenExpiredError`, or any
other verification error (malformed token / bad signature). -/
inductive JwtOutcome where
  | ok (claim : UserClaim)
  | expiredErr
  | otherErr
deriving DecidableEq, Repr

/-- Outcome of an authentication middleware: a 401 rejection, or
proceeding to the handler with the verified claim attached. -/
inductive AuthOutcome where
  | reject (status : Nat) (msg : String)
  | proceed (user : UserClaim)
deriving DecidableEq, Repr

/-- Bearer-token extraction (variant 3, lines 378-379):
the token is the part after the prefix `Bearer ` of the header when
present, else null; a missing header defaults to the empty text.
(Written over the character list so that concrete instances evaluate;
the prefix is 7 ASCII characters, so a 7-character drop matches the JS
`slice(7)`.) -/
def bearerToken (authHeader : Option String) : Option String :=
  let header := authHeader.getD ""
  if "Bearer ".data.isPrefixOf header.data then some ⟨header.data.drop 7⟩ else none

/-- Middleware `verifyToken` (variant 3, lines 377-389; variants 1-2 are
identical up to an extra `expiredAt` detail in the expiry
response of variant 1). `jwtVerify` abstracts `jwt.verify(token, secret)`. The empty
extracted token is falsy in JS, so it also hits the `Token manquant`
branch. -/
def verifyToken (jwtVerify : String → JwtOutcome) (authHeader : Option String) :
    AuthOutcome :=
  match bearerToken authHeader with
  | none => .reject 401 "Token manquant"
  | some t =>
    if t == "" then .reject 401 "Token manquant"
    else
      match jwtVerify t with
      | .ok c => .proceed c
      | .expiredErr => .reject 401 "Token expiré"
      | .otherErr => .reject 401 "Token invalide"

/-! ### Store helpers -/

/-- Helper `findAsblByBusinessId(asblCode)` (variant 3, lines 406-412): first
`ASBL` record whose `{id}` field equals `asblCode` (an absent field
compares as the empty text in a store formula). -/
def findAsblByBusinessId (store : Store) (asblCode : String) : Option AsblRecord :=
  store.asbls.find? (fun a => a.businessId.getD "" == asblCode)

/-- The chunk size used by `fetchRecordsByIds` (variant 3, line 451). -/
def fetchChunkSize : Nat := 25

/-- Fuel-indexed chunking of a list into runs of `fetchChunkSize`; the
fuel is the list length, enough because each step consumes at least one
element. -/
def chunksOfAux : Nat → List α → List (List α)
  | 0, _ => []
  | _, [] => []
  | Nat.succ fuel, xs => xs.take fetchChunkSize :: chunksOfAux fuel (xs.drop fetchChunkSize)

/-- The `for`-loop of `fetchRecordsByIds` (variant 3, lines 450-454):
split the id list into chunks of 25. -/
def chunksOf (xs : List α) : List (List α) :=
  chunksOfAux xs.length xs

/-- Helper `fetchRecordsByIds(tableName, ids)` (variant 3, lines 445-464):
drop falsy ids, return `[]` when none remain, else fetch per 25-id chunk
the records whose `RECORD_ID()` is in the chunk, concatenating the
results of the chunks. `getId` projects the opaque id of a record. -/
def fetchRecordsByIds (getId : α → String) (table : List α) (ids : List String) :
    List α :=
  let safeIds := ids.filter (fun s => s != "")
  if safeIds.isEmpty then []
  else ((chunksOf safeIds).map (fun c => table.filter (fun r => c.contains (getId r)))).flatten

/-! ### Tenant resolution for volunteers -/

/-- JS `String.prototype.trim`: strip leading and trailing whitespace.
(Defined over the character list so that concrete instances evaluate.) -/
def jsTrim (s : String) : String :=
  ⟨((s.data.dropWhile Char.isWhitespace).reverse.dropWhile Char.isWhitespace).reverse⟩

/-- The typeof-text-and-nonblank-trim pattern of the source: the trimmed value of
a present, non-blank text field, else `none`. -/
def strFieldValue (v : Option String) : Option String :=
  match v with
  | some s => if jsTrim s == "" then none else some (jsTrim s)
  | none => none

/-- Resolver `getAsblCodeFromBenevoleRecord(benevoleRecord)` (variant 3,
lines 414-432): try the direct `asblId` text field, then the `asblCode`
text field, then the first id of the `asbl` (or, when that is not an
array, `ASBL`) linked-record field, fetching that `ASBL` record and
reading its `fields.id`. `.ok none` is the resolver returning `null`;
`.error` is the store `find` throwing on a dangling linked id (caught by
the login handler as a 500). -/
def getAsblCodeFromBenevoleRecord (asblTable : List AsblRecord) (f : BenevoleRecord) :
    Except String (Option String) :=
  match strFieldValue f.asblId with
  | some v => .ok (some v)
  | none =>
    match strFieldValue f.asblCode with
    | some v => .ok (some v)
    | none =>
      let linked : Option (List String) :=
        match f.asbl with
        | some l => some l
        | none => f.ASBL
      match linked.bind List.head? with
      | none => .ok none
      | some recId =>
        match asblTable.find? (fun r => r.recordId == recId) with
        | none => .error "AIRTABLE_FIND_FAILED"
        | some r => .ok (strFieldValue r.businessId)

/-! ### Login handlers -/

/-- Payload signed by the variant-1 login: `{ id: record.id, type,
asblId: record.fields.id }`, where `type` is taken verbatim from the
request body (absent when the body lacked it). -/
structure TokenPayloadV1 where
  id : String
  type : Option String
  asblId : Option String
deriving DecidableEq, Repr

/-- Result of a login request: an error response, or an issued token with
the given signed payload. -/
inductive LoginResultV1 where
  | err (status : Nat) (msg : String)
  | token (payload : TokenPayloadV1)
deriving DecidableEq, Repr

/-- Handler of `POST /api/auth/login` (variant 1, lines 84-116; variant 2 is
identical): pick the table and code field from `req.body.type` with no
validation of `type`, look the code up, and sign
`{ id, type, asblId: record.fields.id }`. A missing body field
interpolates into the store formula as the text `undefined`. -/
def loginV1 (store : Store) (code ty : Option String) : LoginResultV1 :=
  let codeVal := code.getD "undefined"
  if ty == some "admin" then
    match store.asbls.find? (fun a => a.codeAdmin.getD "" == codeVal) with
    | none => .err 401 "Code invalide"
    | some r => .token ⟨r.recordId, ty, r.businessId⟩
  else
    match store.benevoles.find? (fun b => b.codeAcces.getD "" == codeVal) with
    | none => .err 401 "Code invalide"
    | some r => .token ⟨r.recordId, ty, r.fieldsId⟩

/-- Payload signed by the variant-3 login: `{ id, type, asblId }` with a
non-null `asblId`. -/
structure TokenPayloadV3 where
  id : String
  type : String
  asblId : String
deriving DecidableEq, Repr

/-- Result of the variant-3 login. -/
inductive LoginResultV3 where
  | err (status : Nat) (msg : String)
  | token (payload : TokenPayloadV3)
deriving DecidableEq, Repr

/-- Truthiness of an optional JS string: present and non-empty. -/
def truthy (v : Option String) : Bool :=
  match v with
  | some s => s != ""
  | none => false

/-- Handler of `POST /api/auth/login` (variant 3, lines 485-526): require truthy
`code` and `type`, require `type` in `{admin, benevole}`, look the code
up (`maxRecords: 1`), then derive `asblId`: for an admin, the ASBL
truthy `fields.id` of the ASBL record; for a volunteer, via
`getAsblCodeFromBenevoleRecord` (a thrown store error is caught as a 500,
a `null` resolution is a 500) — in both failure cases no token is
issued. -/
def loginV3 (store : Store) (code ty : Option String) : LoginResultV3 :=
  if !(truthy code) || !(truthy ty) then .err 400 "code et type requis"
  else if !(["admin", "benevole"].contains (ty.getD "")) then .err 400 "type invalide"
  else if ty == some "admin" then
    match store.asbls.find? (fun a => a.codeAdmin.getD "" == code.getD "") with
    | none => .err 401 "Code invalide"
    | some r =>
      match r.businessId with
      | some s =>
        if s == "" then .err 500 "Champ ASBL id manquant dans Airtable"
        else .token ⟨r.recordId, ty.getD "", s⟩
      | none => .err 500 "Champ ASBL id manquant dans Airtable"
  else
    match store.benevoles.find? (fun b => b.codeAcces.getD "" == code.getD "") with
    | none => .err 401 "Code invalide"
    | some r =>
      match getAsblCodeFromBenevoleRecord store.asbls r with
      | .error _ => .err 500 "Erreur serveur"
      | .ok none => .err 500 "Benevole sans ASBL liee"
      | .ok (some asblId) => .token ⟨r.recordId, ty.getD "", asblId⟩

/-! ### Record-id authorization (variants 1-2) and routes -/

/-- Middleware `authorizeAdminAsblRecordId` (variant 1) middleware (variant 1, lines 60-68):
only an admin may pass, and only for `req.params.id` equal to their own
`req.user.id`; `none` means `next()`. -/
def authorizeAdminAsblRecordId (user : UserClaim) (paramId : String) :
    Option HttpResponse :=
  if user.type != "admin" then some ⟨403, "Accès réservé admin"⟩
  else if paramId != user.id then some ⟨403, "Accès interdit à une autre ASBL"⟩
  else none

/-- Helper `authorizeAdminAsblRecordId(requestedRecordId, req, res)` (variant 2,
lines 224-234): same rule, returning `true` when a 403 was sent. -/
def authorizeAdminAsblRecordIdV2 (requestedRecordId : String) (user : UserClaim) :
    Bool :=
  if user.type != "admin" then true
  else if requestedRecordId != user.id then true
  else false

/-- Handler of `GET /api/asbl/:id` (variant 1, lines 120-131): the
`authorizeAdminAsblRecordId` middleware runs first; only then is the
record fetched (a store failure is a 500). -/
def getAsblByIdV1 (store : Store) (user : UserClaim) (paramId : String) :
    RouteResult AsblRecord :=
  match authorizeAdminAsblRecordId user paramId with
  | some r => .err r.status r.error
  | none =>
    match store.asbls.find? (fun a => a.recordId == paramId) with
    | none => .err 500 "Erreur Airtable"
    | some record => .ok record

/-- Handler of `GET /api/asbl/:recordId` (variant 3, lines 599-612): roles
`{admin, superadmin}`; the store `find` runs BEFORE the ownership check
(a missing record throws, caught as a 500), then an admin whose own
record id differs from the requested one gets a 403. -/
def getAsblByRecordIdV3 (store : Store) (user : UserClaim) (recordId : String) :
    RouteResult AsblRecord :=
  match requireRole ["admin", "superadmin"] user with
  | some r => .err r.status r.error
  | none =>
    match store.asbls.find? (fun a => a.recordId == recordId) with
    | none => .err 500 "Erreur Airtable"
    | some record =>
      if user.type == "admin" && user.id != recordId then
        .err 403 "Accès refusé (ASBL non autorisée)"
      else .ok record

/-- Handler of `GET /api/benevoles/by-asbl/:asblCode` (variant 3, lines 635-653):
roles `{admin, superadmin}`; an admin whose `asblId` differs from the
requested code gets a 403; otherwise list the `Benevoles` records whose
`{asblId}` field equals the code. -/
def benevolesByAsblV3 (store : Store) (user : UserClaim) (asblCode : String) :
    RouteResult (List BenevoleRecord) :=
  match requireRole ["admin", "superadmin"] user with
  | some r => .err r.status r.error
  | none =>
    if user.type == "admin" && user.asblId != some asblCode then
      .err 403 "Accès refusé (ASBL non autorisée)"
    else .ok (store.benevoles.filter (fun b => b.asblId.getD "" == asblCode))

/-- Handler of `GET /api/reservations/by-asbl/:asblCode` (variant 3, lines 763-780):
same shape as the volunteers listing, over the `Reservations` table. -/
def reservationsByAsblV3 (store : Store) (user : UserClaim) (asblCode : String) :
    RouteResult (List ReservationRecord) :=
  match requireRole ["admin", "superadmin"] user with
  | some r => .err r.status r.error
  | none =>
    if user.type == "admin" && user.asblId != some asblCode then
      .err 403 "Accès refusé (ASBL non autorisée)"
    else .ok (store.reservations.filter (fun rv => rv.asblId.getD "" == asblCode))

/-- Handler of `GET /api/participants?asblId=...` (variant 3, lines 714-734): roles
`{admin, benevole, superadmin}`; trim the query, 400 when blank, 403 via
`canAccessAsbl`, 404 when no ASBL record carries the business code, else
return the records referenced by the `participants` id array of the
ASBL record, fetched by opaque record id. -/
def participantsQueryV3 (store : Store) (user : UserClaim) (query : Option String) :
    RouteResult (List ParticipantRecord) :=
  match requireRole ["admin", "benevole", "superadmin"] user with
  | some r => .err r.status r.error
  | none =>
    if jsTrim (query.getD "") == "" then .err 400 "asblId manquant"
    else if !(canAccessAsbl (jsTrim (query.getD "")) user) then
      .err 403 "Accès refusé (ASBL non autorisée)"
    else
      match findAsblByBusinessId store (jsTrim (query.getD "")) with
      | none => .err 404 "ASBL introuvable"
      | some asblRecord =>
        .ok (fetchRecordsByIds (fun p => p.recordId) store.participants
          (asblRecord.participants.getD []))

/-- Handler of `GET /api/reservations?asblId=...` (variant 3, lines 740-757): same
shape as the participants listing, over the `reservations` id array of
the ASBL record. -/
def reservationsQueryV3 (store : Store) (user : UserClaim) (query : Option String) :
    RouteResult (List ReservationRecord) :=
  match requireRole ["admin", "benevole", "superadmin"] user with
  | some r => .err r.status r.error
  | none =>
    if jsTrim (query.getD "") == "" then .err 400 "asblId manquant"
    else if !(canAccessAsbl (jsTrim (query.getD "")) user) then
      .err 403 "Accès refusé (ASBL non autorisée)"
    else
      match findAsblByBusinessId store (jsTrim (query.getD "")) with
      | none => .err 404 "ASBL introuvable"
      | some asblRecord =>
        .ok (fetchRecordsByIds (fun rv => rv.recordId) store.reservations
          (asblRecord.reservations.getD []))

/-- Handler of `GET /api/benevoles/me` (variant 3, lines 540-547): roles
`{benevole}` only; the handler fetches the own `Benevoles` record of
the caller (a store failure is a 500). -/
def benevolesMeV3 (store : Store) (user : UserClaim) : RouteResult BenevoleRecord :=
  match requireRole ["benevole"] user with
  | some r => .err r.status r.error
  | none =>
    match store.benevoles.find? (fun b => b.recordId == user.id) with
    | none => .err 500 "Erreur /api/benevoles/me"
    | some record => .ok record

/-! ### Concrete sample values used by witness theorems -/

/-- A sample abstract jwt verifier: one good token decoding to a volunteer
claim, one expired token, everything else invalid. -/
def jwtVerifySample : String → JwtOutcome := fun t =>
  if t == "tok-good" then .ok ⟨"recB1", "benevole", some "ASBL001"⟩
  else if t == "tok-old" then .expiredErr
  else .otherErr

/-- A store holding one ASBL record with business code ASBL001 that
references, by opaque record id only, one participant record carrying no
tenant field of its own. -/
def orphanStore : Store :=
  ⟨[⟨"recA", some "ASBL001", some "ADM1", some ["recP1"], some []⟩], [],
    [⟨"recP1", none⟩], []⟩

/-- A store holding a single volunteer whose access code is B1 and who has
no tenant reference at all. -/
def escalationStore : Store :=
  ⟨[], [⟨"recB1", some "B1", none, none, none, none, none⟩], [], []⟩

/-- A store holding one ASBL record, and no other record. -/
def oneAsblStore : Store :=
  ⟨[⟨"recA", some "ASBL001", some "ADM1", none, none⟩], [], [], []⟩

/-! ### Helper lemmas -/

theorem chunksOfAux_flatten (fuel : Nat) :
    ∀ xs : List α, xs.length ≤ fuel → (chunksOfAux fuel xs).flatten = xs := by
  induction fuel with
  | zero =>
    intro xs h
    have : xs = [] := List.eq_nil_of_length_eq_zero (Nat.le_zero.mp h)
    subst this
    rfl
  | succ fuel ih =>
    intro xs h
    cases xs with
    | nil => rfl
    | cons x rest =>
      show ((x :: rest).take fetchChunkSize ::
        chunksOfAux fuel ((x :: rest).drop fetchChunkSize)).flatten = x :: rest
      rw [List.flatten_cons]
      rw [ih ((x :: rest).drop fetchChunkSize)
        (by
          rw [List.length_drop]
          have h1 : (x :: rest).length ≤ fuel + 1 := h
          have h2 : 1 ≤ fetchChunkSize := by decide
          omega)]
      exact List.take_append_drop fetchChunkSize (x :: rest)

theorem chunksOf_flatten (xs : List α) : (chunksOf xs).flatten = xs :=
  chunksOfAux_flatten xs.length xs le_rfl

theorem mem_chunksOf_iff (xs : List α) (a : α) :
    (∃ c ∈ chunksOf xs, a ∈ c) ↔ a ∈ xs := by
  constructor
  · rintro ⟨c, hc, ha⟩
    rw [← chunksOf_flatten xs]
    exact List.mem_flatten.mpr ⟨c, hc, ha⟩
  · intro h
    rw [← chunksOf_flatten xs] at h
    exact List.mem_flatten.mp h

theorem mem_fetchRecordsByIds (getId : α → String) (table : List α)
    (ids : List String) (r : α) :
    r ∈ fetchRecordsByIds getId table ids ↔
      r ∈ table ∧ getId r ∈ ids.filter (fun s => s != "") := by
  unfold fetchRecordsByIds
  by_cases hempty : (ids.filter (fun s => s != "")).isEmpty = true
  · simp only [hempty, if_true]
    rw [List.isEmpty_iff.mp hempty]
    simp
  · simp only [hempty]
    rw [if_neg (by simp [hempty])]
    rw [List.mem_flatten]
    constructor
    · rintro ⟨s, hs, hrs⟩
      rw [List.mem_map] at hs
      obtain ⟨c, hc, rfl⟩ := hs
      rw [List.mem_filter] at hrs
      refine ⟨hrs.1, ?_⟩
      have : getId r ∈ c := by
        have := hrs.2
        simpa [List.contains] using this
      exact (mem_chunksOf_iff _ _).mp ⟨c, hc, this⟩
    · rintro ⟨hrt, hid⟩
      obtain ⟨c, hc, hac⟩ := (mem_chunksOf_iff _ _).mpr hid
      refine ⟨table.filter (fun x => c.contains (getId x)), ?_, ?_⟩
      · exact List.mem_map.mpr ⟨c, hc, rfl⟩
      · rw [List.mem_filter]
        exact ⟨hrt, by simpa [List.contains] using hac⟩

theorem requireRole_eq_none_iff (roles : List String) (user : UserClaim) :
    requireRole roles user = none ↔ (user.type ≠ "" ∧ user.type ∈ roles) := by
  unfold requireRole
  by_cases h1 : user.type = ""
  · simp [h1]
  · by_cases h2 : user.type ∈ roles
    · simp [h1, h2, List.contains]
    · simp [h1, h2, List.contains]

theorem requireRole_eq_some_iff (roles : List String) (user : UserClaim) :
    requireRole roles user = some ⟨403, roleErrMsg roles⟩ ↔
      (user.type = "" ∨ user.type ∉ roles) := by
  unfold requireRole
  by_cases h1 : user.type = ""
  · simp [h1]
  · by_cases h2 : user.type ∈ roles
    · simp [h1, h2, List.contains]
    · simp [h1, h2, List.contains]

/-! ### Claim theorems -/

/-- Claim C1: for every claim and requested tenant code, `canAccessAsbl`
returns true when the role is superadmin (for every requested code,
including the empty one); otherwise it returns true iff the claim tenant
equals the requested code by exact case-sensitive string equality (no
prefix or partial matching), and admin and volunteer are treated
identically. -/
theorem canAccessAsbl_correct (user : UserClaim) (code : String) :
    (user.type = "superadmin" → canAccessAsbl code user = true)
    ∧ (user.type ≠ "superadmin" →
        (canAccessAsbl code user = true ↔ user.asblId = some code))
    ∧ (∀ r₁ r₂ : String, r₁ ≠ "superadmin" → r₂ ≠ "superadmin" →
        canAccessAsbl code ⟨user.id, r₁, user.asblId⟩ =
          canAccessAsbl code ⟨user.id, r₂, user.asblId⟩) := by
  refine ⟨?_, ?_, ?_⟩
  · intro h
    simp [canAccessAsbl, h]
  · intro h
    simp [canAccessAsbl, h]
  · intro r₁ r₂ h₁ h₂
    simp [canAccessAsbl, h₁, h₂]

theorem canAccessAsbl_correct_witness :
    canAccessAsbl "T9" ⟨"rec1", "superadmin", none⟩ = true
    ∧ canAccessAsbl "T1" ⟨"rec2", "admin", some "T1"⟩ = true :=
  ⟨(canAccessAsbl_correct ⟨"rec1", "superadmin", none⟩ "T9").1 rfl,
   ((canAccessAsbl_correct ⟨"rec2", "admin", some "T1"⟩ "T1").2.1
     (by decide)).mpr rfl⟩

/-- Claim C2: the variant-1 code login copies the role from the request
body into the signed token without validation, so with a valid volunteer
access code and a body role of superadmin it issues a superadmin token —
evaluating the handler at that failing input. -/
theorem loginV1_issues_body_role :
    loginV1 escalationStore (some "B1") (some "superadmin") =
      .token ⟨"recB1", some "superadmin", none⟩ := by decide

/-- Claim C8: the role requirement passes iff the claim role is a member
of the route-declared allowed-role set (no route declares the empty role),
and on failure the request is rejected with 403 and the handler is not
reached. -/
theorem requireRole_correct (roles : List String) (user : UserClaim)
    (hroles : "" ∉ roles) :
    (requireRole roles user = none ↔ user.type ∈ roles)
    ∧ (user.type ∉ roles → ∀ (α : Type) (handler : RouteResult α),
        withRole roles user handler = .err 403 (roleErrMsg roles)) := by
  constructor
  · rw [requireRole_eq_none_iff]
    constructor
    · rintro ⟨-, h⟩
      exact h
    · intro h
      exact ⟨fun he => hroles (he ▸ h), h⟩
  · intro hnot α handler
    unfold withRole
    rw [(requireRole_eq_some_iff roles user).mpr (Or.inr hnot)]

theorem requireRole_correct_witness :
    requireRole ["admin", "superadmin"] ⟨"recA", "admin", some "A"⟩ = none :=
  (requireRole_correct ["admin", "superadmin"] ⟨"recA", "admin", some "A"⟩
    (by decide)).1.mpr (by decide)

/-- Claim C10: the superadmin override applies only to tenant-scope
checks, not to role checks: every allowed-role set without superadmin
rejects a superadmin claim with 403, and in particular the volunteer
self-record endpoint (allowed roles benevole) does. -/
theorem superadmin_not_role_exempt (user : UserClaim)
    (h : user.type = "superadmin") :
    (∀ roles : List String, "superadmin" ∉ roles →
      requireRole roles user = some ⟨403, roleErrMsg roles⟩)
    ∧ (∀ store : Store, benevolesMeV3 store user =
        .err 403 "Accès refusé (benevole uniquement)") := by
  constructor
  · intro roles hn
    exact (requireRole_eq_some_iff roles user).mpr (Or.inr (by rw [h]; exact hn))
  · intro store
    unfold benevolesMeV3
    rw [(requireRole_eq_some_iff ["benevole"] user).mpr
      (Or.inr (by rw [h]; decide))]
    have hmsg : roleErrMsg ["benevole"] = "Accès refusé (benevole uniquement)" := by
      decide
    simp [hmsg]

theorem superadmin_not_role_exempt_witness :
    benevolesMeV3 ⟨[], [], [], []⟩ ⟨"recS", "superadmin", none⟩ =
      .err 403 "Accès refusé (benevole uniquement)" :=
  (superadmin_not_role_exempt ⟨"recS", "superadmin", none⟩ rfl).2 ⟨[], [], [], []⟩

/-- Claim C7: token verification distinguishes three failure outcomes —
no token supplied is rejected as missing; a token the jwt library cannot
verify (malformed or bad signature) is rejected as Token invalide; a
token that parses and is signed but expired is rejected as Token expiré,
distinct from the malformed response; and the verified claim is attached
to the request (the middleware proceeds) exactly on a successful
verification. -/
theorem verifyToken_taxonomy (jv : String → JwtOutcome) (h : Option String) :
    (verifyToken jv h = .reject 401 "Token manquant" ↔
      (∀ t, bearerToken h = some t → t = ""))
    ∧ (∀ t c, bearerToken h = some t → t ≠ "" →
        (verifyToken jv h = .proceed c ↔ jv t = .ok c))
    ∧ (∀ t, bearerToken h = some t → t ≠ "" → jv t = .expiredErr →
        verifyToken jv h = .reject 401 "Token expiré")
    ∧ (∀ t, bearerToken h = some t → t ≠ "" → jv t = .otherErr →
        verifyToken jv h = .reject 401 "Token invalide")
    ∧ (AuthOutcome.reject 401 "Token expiré" ≠ .reject 401 "Token invalide") := by
  refine ⟨?_, ?_, ?_, ?_, by decide⟩
  · unfold verifyToken
    cases hb : bearerToken h with
    | none => simp
    | some t₀ =>
      by_cases ht : t₀ = ""
      · subst ht
        simp
      · have ht₂ : (t₀ == "") = false := by simpa using ht
        simp only [ht₂, Bool.false_eq_true, if_false]
        constructor
        · intro hcontra
          cases hj : jv t₀ <;> rw [hj] at hcontra <;> simp at hcontra
        · intro hall
          exact absurd (hall t₀ rfl) ht
  · intro t c heq hne
    have ht₂ : (t == "") = false := by simpa using hne
    unfold verifyToken
    rw [heq]
    simp only [ht₂, Bool.false_eq_true, if_false]
    cases hj : jv t <;> simp [hj]
  · intro t heq hne hjv
    have ht₂ : (t == "") = false := by simpa using hne
    unfold verifyToken
    rw [heq]
    simp [ht₂, hjv]
  · intro t heq hne hjv
    have ht₂ : (t == "") = false := by simpa using hne
    unfold verifyToken
    rw [heq]
    simp [ht₂, hjv]

theorem verifyToken_taxonomy_witness :
    verifyToken jwtVerifySample (some "Bearer tok-old") =
      .reject 401 "Token expiré" :=
  (verifyToken_taxonomy jwtVerifySample (some "Bearer tok-old")).2.2.1
    "tok-old" (by decide) (by decide) (by decide)

/-- Claim C9: in the variant-3 fetch-ASBL-by-record-id handler the store
fetch happens before the ownership check, so for an admin caller a
nonexistent record id yields a 500 store-error response, while an
existing record belonging to another admin yields a 403 — the store is
consulted even for requests that are ultimately denied. -/
theorem getAsblRecordIdV3_fetch_before_check (store : Store) (user : UserClaim)
    (rid : String) (hrole : user.type = "admin") :
    (store.asbls.find? (fun a => a.recordId == rid) = none →
      getAsblByRecordIdV3 store user rid = .err 500 "Erreur Airtable")
    ∧ (∀ rec, store.asbls.find? (fun a => a.recordId == rid) = some rec →
        user.id ≠ rid →
        getAsblByRecordIdV3 store user rid =
          .err 403 "Accès refusé (ASBL non autorisée)") := by
  have hreq : requireRole ["admin", "superadmin"] user = none :=
    (requireRole_eq_none_iff _ _).mpr ⟨by rw [hrole]; decide, by rw [hrole]; decide⟩
  constructor
  · intro hfind
    unfold getAsblByRecordIdV3
    rw [hreq, hfind]
  · intro rec hfind hne
    unfold getAsblByRecordIdV3
    rw [hreq, hfind]
    simp [hrole, hne]

theorem getAsblRecordIdV3_fetch_before_check_witness :
    getAsblByRecordIdV3 ⟨[], [], [], []⟩ ⟨"recA", "admin", some "ASBL001"⟩ "recX" =
      .err 500 "Erreur Airtable"
    ∧ getAsblByRecordIdV3 oneAsblStore ⟨"recB", "admin", some "ASBL002"⟩ "recA" =
      .err 403 "Accès refusé (ASBL non autorisée)" :=
  ⟨(getAsblRecordIdV3_fetch_before_check ⟨[], [], [], []⟩
      ⟨"recA", "admin", some "ASBL001"⟩ "recX" rfl).1 rfl,
   (getAsblRecordIdV3_fetch_before_check oneAsblStore
      ⟨"recB", "admin", some "ASBL002"⟩ "recA" rfl).2
     ⟨"recA", some "ASBL001", some "ADM1", none, none⟩ (by decide) (by decide)⟩

/-- Claim C3 counterexample: in variant 1 a superadmin caller requesting
an existing ASBL record by opaque id is rejected with 403, although the
claim states a superadmin caller is always permitted. -/
theorem superadmin_denied_record_fetch_V1 :
    getAsblByIdV1 oneAsblStore ⟨"recS", "superadmin", none⟩ "recA" =
      .err 403 "Accès réservé admin" := by decide

/-- Claim C3 (amended): in variant 3 access to the fetch-ASBL-by-record-id
route is granted iff the caller is a superadmin or an admin whose
subjectId equals the requested record id; in variants 1 and 2 there is no
superadmin bypass — the check passes iff the caller is an admin and the
requested id equals their subjectId. -/
theorem recordId_access_characterized (store : Store) (user : UserClaim)
    (rid : String) (rec : AsblRecord)
    (hfind : store.asbls.find? (fun a => a.recordId == rid) = some rec) :
    (authorizeAdminAsblRecordId user rid = none ↔
      (user.type = "admin" ∧ user.id = rid))
    ∧ (authorizeAdminAsblRecordIdV2 rid user = false ↔
      (user.type = "admin" ∧ user.id = rid))
    ∧ (getAsblByRecordIdV3 store user rid = .ok rec ↔
      (user.type = "superadmin" ∨ (user.type = "admin" ∧ user.id = rid))) := by
  refine ⟨?_, ?_, ?_⟩
  · unfold authorizeAdminAsblRecordId
    by_cases h1 : user.type = "admin" <;> by_cases h2 : user.id = rid
    · simp [h1, h2]
    · have h2b : rid ≠ user.id := fun hx => h2 hx.symm
      simp [h1, h2, h2b]
    · simp [h1, h2]
    · simp [h1, h2]
  · unfold authorizeAdminAsblRecordIdV2
    by_cases h1 : user.type = "admin" <;> by_cases h2 : user.id = rid
    · simp [h1, h2]
    · have h2b : rid ≠ user.id := fun hx => h2 hx.symm
      simp [h1, h2, h2b]
    · simp [h1, h2]
    · simp [h1, h2]
  · unfold getAsblByRecordIdV3
    cases hreq : requireRole ["admin", "superadmin"] user with
    | some r =>
      have hnot : ¬(user.type ≠ "" ∧ user.type ∈ ["admin", "superadmin"]) := by
        intro hx
        rw [(requireRole_eq_none_iff _ _).mpr hx] at hreq
        simp at hreq
      constructor
      · intro hcontra
        simp at hcontra
      · rintro (hsup | ⟨hadm, -⟩)
        · exact absurd ⟨by rw [hsup]; decide, by rw [hsup]; decide⟩ hnot
        · exact absurd ⟨by rw [hadm]; decide, by rw [hadm]; decide⟩ hnot
    | none =>
      have hmem := (requireRole_eq_none_iff ["admin", "superadmin"] user).mp hreq
      rw [hfind]
      by_cases hA : user.type = "admin"
      · by_cases hid : user.id = rid
        · simp [hA, hid]
        · simp [hA, hid]
      · have hS : user.type = "superadmin" := by
          rcases hmem with ⟨-, hm⟩
          simp [List.mem_cons] at hm
          rcases hm with hm | hm
          · exact absurd hm hA
          · exact hm
        simp [hS]

theorem recordId_access_characterized_witness :
    getAsblByRecordIdV3 oneAsblStore ⟨"recS", "superadmin", none⟩ "recA" =
      .ok ⟨"recA", some "ASBL001", some "ADM1", none, none⟩ :=
  (recordId_access_characterized oneAsblStore ⟨"recS", "superadmin", none⟩ "recA"
    ⟨"recA", some "ASBL001", some "ADM1", none, none⟩ (by decide)).2.2.mpr
    (Or.inl rfl)

/-- Claim C4: an admin of tenant a requesting any of the four
tenant-scoped listing routes for a tenant code b different from a is
rejected with the 403 tenant-forbidden response, even though the admin
role passes every one of the role allow-lists of those routes (final two
conjuncts). -/
theorem crossTenant_admin_denied (store : Store) (user : UserClaim)
    (a b : String) (hrole : user.type = "admin") (ha : user.asblId = some a)
    (hne : b ≠ a) (hbtrim : jsTrim b = b) (hb : b ≠ "") :
    benevolesByAsblV3 store user b = .err 403 "Accès refusé (ASBL non autorisée)"
    ∧ reservationsByAsblV3 store user b = .err 403 "Accès refusé (ASBL non autorisée)"
    ∧ participantsQueryV3 store user (some b) =
        .err 403 "Accès refusé (ASBL non autorisée)"
    ∧ reservationsQueryV3 store user (some b) =
        .err 403 "Accès refusé (ASBL non autorisée)"
    ∧ requireRole ["admin", "superadmin"] user = none
    ∧ requireRole ["admin", "benevole", "superadmin"] user = none := by
  have hreq1 : requireRole ["admin", "superadmin"] user = none :=
    (requireRole_eq_none_iff _ _).mpr ⟨by rw [hrole]; decide, by rw [hrole]; decide⟩
  have hreq2 : requireRole ["admin", "benevole", "superadmin"] user = none :=
    (requireRole_eq_none_iff _ _).mpr ⟨by rw [hrole]; decide, by rw [hrole]; decide⟩
  have hmm : (user.asblId != some b) = true := by
    simp [ha, Ne.symm hne]
  have hacc : canAccessAsbl b user = false := by
    unfold canAccessAsbl
    simp [hrole, ha, Ne.symm hne]
  refine ⟨?_, ?_, ?_, ?_, hreq1, hreq2⟩
  · unfold benevolesByAsblV3
    rw [hreq1]
    simp [hrole, hmm]
  · unfold reservationsByAsblV3
    rw [hreq1]
    simp [hrole, hmm]
  · unfold participantsQueryV3
    rw [hreq2]
    simp [hbtrim, hb, hacc]
  · unfold reservationsQueryV3
    rw [hreq2]
    simp [hbtrim, hb, hacc]

theorem crossTenant_admin_denied_witness :
    benevolesByAsblV3 ⟨[], [], [], []⟩ ⟨"recA", "admin", some "A"⟩ "B" =
      .err 403 "Accès refusé (ASBL non autorisée)" :=
  (crossTenant_admin_denied ⟨[], [], [], []⟩ ⟨"recA", "admin", some "A"⟩
    "A" "B" rfl rfl (by decide) (by decide) (by decide)).1

/-- Claim C5 counterexample: a participant record with no resolvable
tenant on any source, referenced only by opaque id from the ASBL001
tenant record, IS returned by the tenant-filtered participants listing of
ASBL001 — the claim states it must be excluded from every such listing. -/
theorem orphan_record_listed :
    participantsQueryV3 orphanStore ⟨"recA", "admin", some "ASBL001"⟩
      (some "ASBL001") = .ok [⟨"recP1", none⟩] := by decide

/-- Claim C5 (amended): the formula-filtered by-asbl listings exclude
records without a direct tenant field for every nonempty tenant code, but
the participants and reservations query listings include exactly the
records referenced by the id arrays of the resolved ASBL record,
regardless of any tenant field on the records themselves. -/
theorem tenant_listing_characterized (store : Store) (user : UserClaim) :
    (∀ code l b, code ≠ "" → benevolesByAsblV3 store user code = .ok l →
      b ∈ l → b.asblId = some code)
    ∧ (∀ code l rv, code ≠ "" → reservationsByAsblV3 store user code = .ok l →
      rv ∈ l → rv.asblId = some code)
    ∧ (∀ q l p rec, participantsQueryV3 store user q = .ok l →
        findAsblByBusinessId store (jsTrim (q.getD "")) = some rec →
        (p ∈ l ↔ p ∈ store.participants ∧
          p.recordId ∈ (rec.participants.getD []).filter (fun s => s != "")))
    ∧ (∀ q l rv rec, reservationsQueryV3 store user q = .ok l →
        findAsblByBusinessId store (jsTrim (q.getD "")) = some rec →
        (rv ∈ l ↔ rv ∈ store.reservations ∧
          rv.recordId ∈ (rec.reservations.getD []).filter (fun s => s != ""))) := by
  refine ⟨?_, ?_, ?_, ?_⟩
  · intro code l b hcode hok hb
    unfold benevolesByAsblV3 at hok
    cases hreq : requireRole ["admin", "superadmin"] user with
    | some r =>
      rw [hreq] at hok
      simp at hok
    | none =>
      rw [hreq] at hok
      dsimp only [] at hok
      split at hok
      · exact absurd hok (by simp)
      · simp only [RouteResult.ok.injEq] at hok
        rw [← hok] at hb
        rw [List.mem_filter] at hb
        obtain ⟨-, hpred⟩ := hb
        cases hx : b.asblId with
        | none =>
          rw [hx] at hpred
          simp at hpred
          exact absurd hpred.symm hcode
        | some v =>
          rw [hx] at hpred
          simp at hpred
          rw [hpred]
  · intro code l rv hcode hok hrv
    unfold reservationsByAsblV3 at hok
    cases hreq : requireRole ["admin", "superadmin"] user with
    | some r =>
      rw [hreq] at hok
      simp at hok
    | none =>
      rw [hreq] at hok
      dsimp only [] at hok
      split at hok
      · exact absurd hok (by simp)
      · simp only [RouteResult.ok.injEq] at hok
        rw [← hok] at hrv
        rw [List.mem_filter] at hrv
        obtain ⟨-, hpred⟩ := hrv
        cases hx : rv.asblId with
        | none =>
          rw [hx] at hpred
          simp at hpred
          exact absurd hpred.symm hcode
        | some v =>
          rw [hx] at hpred
          simp at hpred
          rw [hpred]
  · intro q l p rec hok hfind
    unfold participantsQueryV3 at hok
    cases hreq : requireRole ["admin", "benevole", "superadmin"] user with
    | some r =>
      rw [hreq] at hok
      simp at hok
    | none =>
      rw [hreq] at hok
      dsimp only [] at hok
      by_cases h1 : (jsTrim (q.getD "") == "") = true
      · rw [if_pos h1] at hok
        exact absurd hok (by simp)
      · rw [if_neg h1] at hok
        by_cases h2 : (!canAccessAsbl (jsTrim (q.getD "")) user) = true
        · rw [if_pos h2] at hok
          exact absurd hok (by simp)
        · rw [if_neg h2] at hok
          rw [hfind] at hok
          dsimp only [] at hok
          simp only [RouteResult.ok.injEq] at hok
          rw [← hok]
          exact mem_fetchRecordsByIds _ _ _ _
  · intro q l rv rec hok hfind
    unfold reservationsQueryV3 at hok
    cases hreq : requireRole ["admin", "benevole", "superadmin"] user with
    | some r =>
      rw [hreq] at hok
      simp at hok
    | none =>
      rw [hreq] at hok
      dsimp only [] at hok
      by_cases h1 : (jsTrim (q.getD "") == "") = true
      · rw [if_pos h1] at hok
        exact absurd hok (by simp)
      · rw [if_neg h1] at hok
        by_cases h2 : (!canAccessAsbl (jsTrim (q.getD "")) user) = true
        · rw [if_pos h2] at hok
          exact absurd hok (by simp)
        · rw [if_neg h2] at hok
          rw [hfind] at hok
          dsimp only [] at hok
          simp only [RouteResult.ok.injEq] at hok
          rw [← hok]
          exact mem_fetchRecordsByIds _ _ _ _

theorem tenant_listing_characterized_witness :
    (⟨"recP1", none⟩ : ParticipantRecord) ∈ [(⟨"recP1", none⟩ : ParticipantRecord)] :=
  ((tenant_listing_characterized orphanStore ⟨"recA", "admin", some "ASBL001"⟩).2.2.1
    (some "ASBL001") [⟨"recP1", none⟩] ⟨"recP1", none⟩
    ⟨"recA", some "ASBL001", some "ADM1", some ["recP1"], some []⟩
    (by decide) (by decide)).mpr (by decide)

/-- Claim C6: volunteer tenant resolution tries, in order, the direct
asblId text field, then the alternate asblCode text field, then the
linked-record relation (asbl, else ASBL) followed to the ASBL record and
its business code; the first source that yields a value wins (a direct
field beats any conflicting relation), with no linked record the
resolver yields null, and when resolution fails — null or a thrown store
error — the volunteer login issues no token. -/
theorem volunteer_tenant_resolution (asblTable : List AsblRecord)
    (f : BenevoleRecord) (store : Store) (code : Option String) :
    (∀ s, strFieldValue f.asblId = some s →
      getAsblCodeFromBenevoleRecord asblTable f = .ok (some s))
    ∧ (strFieldValue f.asblId = none → ∀ s, strFieldValue f.asblCode = some s →
      getAsblCodeFromBenevoleRecord asblTable f = .ok (some s))
    ∧ (strFieldValue f.asblId = none → strFieldValue f.asblCode = none →
      ∀ recId rest r, f.asbl = some (recId :: rest) →
        asblTable.find? (fun x => x.recordId == recId) = some r →
        getAsblCodeFromBenevoleRecord asblTable f = .ok (strFieldValue r.businessId))
    ∧ (strFieldValue f.asblId = none → strFieldValue f.asblCode = none →
      f.asbl = none → ∀ recId rest r, f.ASBL = some (recId :: rest) →
        asblTable.find? (fun x => x.recordId == recId) = some r →
        getAsblCodeFromBenevoleRecord asblTable f = .ok (strFieldValue r.businessId))
    ∧ (strFieldValue f.asblId = none → strFieldValue f.asblCode = none →
      (f.asbl = none ∧ f.ASBL = none ∨ f.asbl = some []) →
        getAsblCodeFromBenevoleRecord asblTable f = .ok none)
    ∧ ((∀ rec, store.benevoles.find?
          (fun x => x.codeAcces.getD "" == code.getD "") = some rec →
        ∀ s, getAsblCodeFromBenevoleRecord store.asbls rec ≠ .ok (some s)) →
      ∀ p, loginV3 store code (some "benevole") ≠ .token p) := by
  refine ⟨?_, ?_, ?_, ?_, ?_, ?_⟩
  · intro s hs
    unfold getAsblCodeFromBenevoleRecord
    rw [hs]
  · intro h1 s hs
    unfold getAsblCodeFromBenevoleRecord
    rw [h1, hs]
  · intro h1 h2 recId rest r hlink hfind
    unfold getAsblCodeFromBenevoleRecord
    rw [h1, h2, hlink]
    dsimp only [Option.bind, List.head?]
    rw [hfind]
  · intro h1 h2 hnone recId rest r hlink hfind
    unfold getAsblCodeFromBenevoleRecord
    rw [h1, h2, hnone, hlink]
    dsimp only [Option.bind, List.head?]
    rw [hfind]
  · intro h1 h2 hcase
    unfold getAsblCodeFromBenevoleRecord
    rw [h1, h2]
    rcases hcase with ⟨ha, hA⟩ | ha
    · rw [ha, hA]
      rfl
    · rw [ha]
      rfl
  · intro hres p heq
    unfold loginV3 at heq
    by_cases hc : truthy code = true
    · rw [hc] at heq
      simp only [Bool.not_true, Bool.false_or] at heq
      by_cases hfind : ∃ rec, store.benevoles.find?
          (fun x => x.codeAcces.getD "" == code.getD "") = some rec
      · obtain ⟨rec, hrec⟩ := hfind
        rw [hrec] at heq
        simp at heq
        cases hgc : getAsblCodeFromBenevoleRecord store.asbls rec with
        | error e =>
          rw [hgc] at heq
          simp [truthy] at heq
        | ok v =>
          cases v with
          | none =>
            rw [hgc] at heq
            simp [truthy] at heq
          | some s =>
            exact hres rec hrec s hgc
      · push_neg at hfind
        have hnone : store.benevoles.find?
            (fun x => x.codeAcces.getD "" == code.getD "") = none := by
          cases hx : store.benevoles.find?
              (fun x => x.codeAcces.getD "" == code.getD "") with
          | none => rfl
          | some rec => exact absurd hx (hfind rec)
        rw [hnone] at heq
        simp [truthy] at heq
    · have hc2 : truthy code = false := by
        cases hx : truthy code
        · rfl
        · exact absurd hx hc
      rw [hc2] at heq
      simp at heq

theorem volunteer_tenant_resolution_witness :
    getAsblCodeFromBenevoleRecord []
      ⟨"recB1", some "B1", some " A1 ", some "A2", some ["recX"], none, none⟩ =
      .ok (some "A1") :=
  (volunteer_tenant_resolution []
    ⟨"recB1", some "B1", some " A1 ", some "A2", some ["recX"], none, none⟩
    ⟨[], [], [], []⟩ none).1 "A1" (by decide)
